import Mathlib

/-
  Shallow embedding of the ZingTouch state coordinator (src/core/state.js).

  The source file `state.js` owns three pieces of mutable state:
  `inputs` (the contact-record collection), `bindings` (the binding list)
  and `numGestures` (the monotone gesture-id counter).  We model the whole
  coordinator object as the structure `State` and every method as a pure
  function from `State` to `State` plus its return value.

  JavaScript details mirrored here:
  * `this.inputs[id]` is an array lookup at index `id`; its truthiness test
    succeeds exactly when the index is in bounds (all stored values are
    `Input` objects, which are truthy).  We model it with `List.getElem?`.
  * `this.inputs.push(x)` appends at the end (`++ [x]`).
  * In-place mutation of the record at index `id` becomes `List.set`.
  * A thrown `TypeError` (possible in `updateInputs`, line 132 of the
    source, where `this.inputs[0].update(event)` dereferences a possibly
    `undefined` element) is modelled by returning `none`; every normal
    return is `some`.

  The collaborator classes `util.js`, `Input.js`, `Gesture.js` and
  `Binding.js` are imported by `state.js` but are not part of the core
  source; they are modelled from the specification (each such definition
  carries a doc comment starting with `Modelled from the spec:`).
-/

namespace ZT

/-- Modelled from the spec: the Event Normalizer (`util.normalizeEvent`;
`core/util.js` is not part of the core source).  It maps a raw event-type
label to exactly one of the canonical phases start/move/end/cancel and
returns the unrecognized sentinel (`none`) for labels outside the known
vocabulary. -/
def normalizeEvent (t : String) : Option String :=
  if t = "mousedown" ∨ t = "touchstart" ∨ t = "pointerdown" then some "start"
  else if t = "mousemove" ∨ t = "touchmove" ∨ t = "pointermove" then some "move"
  else if t = "mouseup" ∨ t = "touchend" ∨ t = "pointerup" then some "end"
  else if t = "touchcancel" ∨ t = "pointercancel" then some "cancel"
  else none

/-- One entry of a TouchList: only the `identifier` field is inspected by
the coordinator. -/
structure Touch where
  identifier : Nat
deriving DecidableEq

/-- The raw event shape consumed by `updateInputs`:
`{type, touches?, targetTouches, changedTouches}`.  Absence of `touches`
(`none`) selects the single-pointer fallback path. -/
structure RawEvent where
  type : String
  touches : Option (List Touch)
  targetTouches : List Touch
  changedTouches : List Touch
deriving DecidableEq

/-- Modelled from the spec: a Contact Record (`core/classes/Input.js` is
not part of the core source).  It carries the stable contact `identifier`
and the current canonical phase (`current.type`); positional history is
opaque to the coordinator and omitted. -/
structure Input where
  identifier : Nat
  currentType : Option String
deriving DecidableEq

/-- Modelled from the spec: `new Input(event, identifier)` — the record is
created with the event's normalized phase; the identifier defaults to 0 on
the single-pointer fallback path. -/
def Input.create (e : RawEvent) (id : Nat) : Input :=
  ⟨id, normalizeEvent e.type⟩

/-- Modelled from the spec: `input.update(event)` — the record keeps its
identifier and takes the new event's normalized phase as its current
phase. -/
def Input.update (i : Input) (e : RawEvent) : Input :=
  { i with currentType := normalizeEvent e.type }

/-- Modelled from the spec: a Gesture capability object
(`gestures/Gesture.js` is not part of the core source).  It exposes a type
discriminator and a numeric id; `id = none` until `setId` is first
called. -/
structure Gesture where
  type : String
  id : Option Nat
deriving DecidableEq

/-- Modelled from the spec: `gesture.setId(id)` is a plain setter for the
numeric id. -/
def Gesture.setId (g : Gesture) (i : Nat) : Gesture :=
  { g with id := some i }

/-- A Binding record (`core/classes/Binding.js` holds a plain constructor
storing its five arguments; element handles and handlers are opaque and
modelled as naturals, identity-comparable). -/
structure Binding where
  element : Nat
  gesture : Gesture
  handler : Nat
  capture : Bool
  bindOnce : Bool
deriving DecidableEq

/-- The dynamically typed `gesture` argument of `addBinding`: a string
name, a `Gesture` instance, or any other JavaScript value (plain object,
number, null, ...). -/
inductive GestureArg where
  | name (s : String)
  | gestureObj (g : Gesture)
  | other
deriving DecidableEq

/-- The coordinator's state: `state.inputs`, `state.bindings`,
`state.numGestures`. -/
structure State where
  inputs : List Input
  bindings : List Binding
  numGestures : Nat
deriving DecidableEq

/-- The initial coordinator state: no inputs, no bindings, counter 0. -/
def emptyState : State :=
  ⟨[], [], 0⟩

/-- `state.registeredGestures` — the fixed capability set
{expand, pan, pinch, rotate, swipe, tap}; lookup of any other key yields
`undefined` (`none`). -/
def registeredGestures (name : String) : Option Gesture :=
  if name = "expand" then some ⟨"expand", none⟩
  else if name = "pan" then some ⟨"pan", none⟩
  else if name = "pinch" then some ⟨"pinch", none⟩
  else if name = "rotate" then some ⟨"rotate", none⟩
  else if name = "swipe" then some ⟨"swipe", none⟩
  else if name = "tap" then some ⟨"tap", none⟩
  else none

/-- The result of `addBinding`: the updated coordinator state, the
returned value (`none` for JavaScript `null`/`undefined`), and — because
`addBinding` mutates a `Gesture` passed by reference via `setId` — the
mutated gesture object (`none` when the argument was not a `Gesture`
instance or lookup failed before mutation). -/
structure AddBindingResult where
  state : State
  result : Option Binding
  gestureOut : Option Gesture
deriving DecidableEq

/-- `state.addBinding(element, gesture, handler, capture, bindOnce)`
(source lines 51-70): a string argument is resolved through
`registeredGestures` (returning null when absent); a non-string argument
that is not a `Gesture` instance returns null; a `Gesture` instance gets
`setId(this.numGestures++)` unconditionally.  On success a Binding is
constructed and pushed. -/
def addBinding (s : State) (element : Nat) (gesture : GestureArg)
    (handler : Nat) (capture bindOnce : Bool) : AddBindingResult :=
  match gesture with
  | .name n =>
    match registeredGestures n with
    | none => ⟨s, none, none⟩
    | some g =>
      let b : Binding := ⟨element, g, handler, capture, bindOnce⟩
      ⟨{ s with bindings := s.bindings ++ [b] }, some b, none⟩
  | .gestureObj g =>
    let g' := g.setId s.numGestures
    let b : Binding := ⟨element, g', handler, capture, bindOnce⟩
    ⟨{ s with numGestures := s.numGestures + 1,
              bindings := s.bindings ++ [b] }, some b, some g'⟩
  | .other => ⟨s, none, none⟩

/-- `state.retrieveBindings(element)` (source lines 78-87): linear scan
collecting the bindings whose element is identity-equal to the
argument. -/
def retrieveBindings (s : State) (element : Nat) : List Binding :=
  s.bindings.filter (fun b => b.element = element)

/-- `state.resetInputs()` (source lines 143-145): `this.inputs = []`. -/
def resetInputs (s : State) : State :=
  { s with inputs := [] }

/-- Source lines 121-125: for a non-start datum, if `this.inputs[id]` is
truthy the record at index `id` is updated in place; otherwise the datum
is ignored. -/
def updateAt (s : State) (e : RawEvent) (id : Nat) : State :=
  match s.inputs[id]? with
  | some inp => { s with inputs := s.inputs.set id (inp.update e) }
  | none => s

/-- The `for (var index in event.changedTouches)` loop of `updateInputs`
(source lines 110-127), processing the changed touches in order.  On a
start-phase event, a truthy `this.inputs[id]` triggers `resetInputs` and
an immediate `return false`; otherwise a new Input is pushed.  On any
other phase the record at index `id` is updated in place when present. -/
def processTouches (s : State) (e : RawEvent) : List Touch → State × Bool
  | [] => (s, true)
  | t :: rest =>
    if normalizeEvent e.type = some "start" then
      if (s.inputs[t.identifier]?).isSome then
        (resetInputs s, false)
      else
        processTouches
          { s with inputs := s.inputs ++ [Input.create e t.identifier] } e rest
    else
      processTouches (updateAt s e t.identifier) e rest

/-- `state.updateInputs(event)` (source lines 102-137).  `none` models the
uncaught `TypeError` thrown on the single-pointer fallback path when a
non-start event arrives while `this.inputs[0]` is `undefined` (source
line 132). -/
def updateInputs (s : State) (e : RawEvent) : Option (State × Bool) :=
  match e.touches with
  | some ts =>
    if ts.length ≠ e.targetTouches.length then
      some (resetInputs s, false)
    else
      some (processTouches s e e.changedTouches)
  | none =>
    if normalizeEvent e.type = some "start" then
      some ({ s with inputs := s.inputs ++ [Input.create e 0] }, true)
    else
      match s.inputs[0]? with
      | some inp => some ({ s with inputs := s.inputs.set 0 (inp.update e) }, true)
      | none => none

/-- `state.numActiveInputs()` (source lines 152-161): the number of
records whose current phase is not `end`. -/
def numActiveInputs (s : State) : Nat :=
  (s.inputs.filter (fun i => i.currentType ≠ some "end")).length

/-- `getGestureType(gesture)` (source lines 171-181). -/
def getGestureType (gesture : GestureArg) : Option String :=
  match gesture with
  | .name n => if (registeredGestures n).isSome then some n else none
  | .gestureObj g => some g.type
  | .other => none

end ZT

namespace ZT

/-! ### Claims about the Binding Registry (`addBinding`) -/

/-- C10: for every gesture argument that is neither a string nor a
`Gesture` instance, `addBinding` returns null and leaves the binding list
and the gesture-id counter unchanged. -/
theorem C10_non_gesture_argument (s : State) (element handler : Nat)
    (capture bindOnce : Bool) :
    addBinding s element .other handler capture bindOnce = ⟨s, none, none⟩ :=
  rfl

/-- C8: for every gesture name outside {expand, pan, pinch, rotate, swipe,
tap}, `addBinding` returns null without throwing and leaves the state
(including the binding list) unchanged. -/
theorem C8_unknown_name (s : State) (element handler : Nat)
    (capture bindOnce : Bool) (n : String)
    (h : ¬(n = "expand" ∨ n = "pan" ∨ n = "pinch" ∨ n = "rotate" ∨
           n = "swipe" ∨ n = "tap")) :
    addBinding s element (.name n) handler capture bindOnce = ⟨s, none, none⟩ := by
  push_neg at h
  obtain ⟨h1, h2, h3, h4, h5, h6⟩ := h
  simp [addBinding, registeredGestures, h1, h2, h3, h4, h5, h6]

/-- Witness for C8 at the concrete unknown name "zoom". -/
theorem C8_unknown_name_witness :
    addBinding emptyState 3 (.name "zoom") 7 false true = ⟨emptyState, none, none⟩ :=
  C8_unknown_name emptyState 3 7 false true "zoom" (by decide)

/-- C1 counterexample: a Gesture object that was already bound (and hence
carries id 0, assigned by the first `addBinding`) gets its id re-assigned
to 1 by a second `addBinding` call — `gesture.setId(this.numGestures++)`
runs unconditionally on the object path (source line 60), so ids are not
assigned "at most once, on first encounter". -/
theorem C1_counterexample :
    (addBinding emptyState 0 (.gestureObj ⟨"custom", none⟩) 0 false false).gestureOut
      = some ⟨"custom", some 0⟩ ∧
    (addBinding (addBinding emptyState 0 (.gestureObj ⟨"custom", none⟩) 0 false false).state
        0 (.gestureObj ⟨"custom", some 0⟩) 0 false false).gestureOut
      = some ⟨"custom", some 1⟩ := by
  decide

/-- C1 (amended): every `addBinding` call that passes a `Gesture` instance
assigns it the current counter value as its id — overwriting any
previously assigned id — and increments the counter; a repeated call with
the same (already bound) object therefore re-assigns a fresh id. -/
theorem C1_amended_reassigns (s : State) (el hdl : Nat) (c b : Bool) (g : Gesture) :
    (addBinding s el (.gestureObj g) hdl c b).gestureOut
      = some (g.setId s.numGestures) ∧
    (addBinding s el (.gestureObj g) hdl c b).state.numGestures = s.numGestures + 1 ∧
    (addBinding (addBinding s el (.gestureObj g) hdl c b).state el
        (.gestureObj (g.setId s.numGestures)) hdl c b).gestureOut
      = some (g.setId (s.numGestures + 1)) :=
  ⟨rfl, rfl, rfl⟩

/-- Sequentially bind a list of (element, gesture-object) pairs through
`addBinding`, collecting the id each call assigns to its gesture. -/
def bindAll (s : State) : List (Nat × Gesture) → State × List (Option Nat)
  | [] => (s, [])
  | (el, g) :: rest =>
    let r := addBinding s el (.gestureObj g) 0 false false
    let p := bindAll r.state rest
    (p.1, r.gestureOut.bind Gesture.id :: p.2)

/-- C9: binding N gesture objects via `addBinding` assigns them the N
consecutive counter values in call order — a strictly increasing id
sequence, independent of which elements they are bound to. -/
theorem C9_monotonic_ids (s : State) (items : List (Nat × Gesture)) :
    (bindAll s items).2 = (List.range' s.numGestures items.length).map some ∧
    List.Pairwise (· < ·) (List.range' s.numGestures items.length) := by
  constructor
  · induction items generalizing s with
    | nil => rfl
    | cons hd tl ih =>
      obtain ⟨el, g⟩ := hd
      simp only [bindAll, addBinding, List.length_cons, List.range'_succ,
        List.map_cons, Option.bind_some]
      refine congrArg₂ List.cons rfl ?_
      exact ih _
  · exact List.pairwise_lt_range' _ _

/-! ### Claims about the Contact Lifecycle Tracker (`updateInputs`) -/

/-- C2: on the single-pointer fallback path (no `touches` list), a
non-start event arriving while no Contact Record exists makes
`updateInputs` dereference `this.inputs[0]`, which is `undefined` — an
uncaught TypeError (modelled as `none`), not a boolean return. -/
theorem C2_fallback_orphan_throws :
    updateInputs emptyState ⟨"mousemove", none, [], []⟩ = none := by
  decide

/-- C7: whenever `touches` is present and its length differs from
`targetTouches`, `updateInputs` clears all Contact Records (the active
count drops to 0) and returns false, regardless of phase or changed-touch
content. -/
theorem C7_target_mismatch_reset (s : State) (e : RawEvent) (ts : List Touch)
    (h1 : e.touches = some ts) (h2 : ts.length ≠ e.targetTouches.length) :
    updateInputs s e = some (resetInputs s, false) ∧
    numActiveInputs (resetInputs s) = 0 := by
  refine ⟨?_, rfl⟩
  simp [updateInputs, h1, h2]

/-- Witness for C7: a two-touch event whose target list has one entry. -/
theorem C7_target_mismatch_reset_witness :
    updateInputs emptyState ⟨"touchmove", some [⟨0⟩, ⟨1⟩], [⟨0⟩], [⟨0⟩]⟩ =
      some (resetInputs emptyState, false) ∧
    numActiveInputs (resetInputs emptyState) = 0 :=
  C7_target_mismatch_reset emptyState ⟨"touchmove", some [⟨0⟩, ⟨1⟩], [⟨0⟩], [⟨0⟩]⟩
    [⟨0⟩, ⟨1⟩] rfl (by decide)

end ZT

namespace ZT

/-- `updateAt` never changes the number of records. -/
theorem length_updateAt (s : State) (e : RawEvent) (id : Nat) :
    (updateAt s e id).inputs.length = s.inputs.length := by
  unfold updateAt
  cases s.inputs[id]? <;> simp

/-- On a non-start event the touch loop never resets: it returns `true`
and preserves the number of records. -/
theorem processTouches_nonstart (e : RawEvent)
    (hns : ¬ normalizeEvent e.type = some "start") :
    ∀ (data : List Touch) (s : State),
      (processTouches s e data).2 = true ∧
      (processTouches s e data).1.inputs.length = s.inputs.length
  | [], _ => ⟨rfl, rfl⟩
  | t :: rest, s => by
    simp only [processTouches, if_neg hns]
    refine ⟨(processTouches_nonstart e hns rest _).1, ?_⟩
    exact ((processTouches_nonstart e hns rest _).2).trans (length_updateAt s e t.identifier)

/-- On a non-start event, touch data whose identifiers all lie beyond the
record-array bounds are skipped entirely: the state is returned unchanged
with `true`. -/
theorem processTouches_skip (e : RawEvent)
    (hns : ¬ normalizeEvent e.type = some "start") :
    ∀ (data : List Touch) (s : State),
      (∀ t ∈ data, s.inputs.length ≤ t.identifier) →
      processTouches s e data = (s, true)
  | [], _, _ => rfl
  | t :: rest, s, h => by
    have h0 : s.inputs[t.identifier]? = none :=
      List.getElem?_eq_none (h t (List.mem_cons_self t rest))
    have hup : updateAt s e t.identifier = s := by
      unfold updateAt; rw [h0]
    simp only [processTouches, if_neg hns, hup]
    exact processTouches_skip e hns rest s (fun u hu => h u (List.mem_cons_of_mem t hu))

/-- On a start event, as soon as some changed datum's identifier indexes
an occupied slot of the record array, the loop resets and returns
`false`. -/
theorem processTouches_start_reset (e : RawEvent)
    (hs : normalizeEvent e.type = some "start") :
    ∀ (data : List Touch) (s : State),
      (∃ t ∈ data, t.identifier < s.inputs.length) →
      processTouches s e data = (resetInputs s, false)
  | [], _, h => absurd h (by simp)
  | t :: rest, s, h => by
    by_cases hlt : t.identifier < s.inputs.length
    · have hsome : (s.inputs[t.identifier]?).isSome = true := by
        rw [List.getElem?_eq_getElem hlt]; rfl
      simp only [processTouches, if_pos hs, hsome, if_true]
    · have hnone : (s.inputs[t.identifier]?).isSome = false := by
        rw [List.getElem?_eq_none (Nat.le_of_not_lt hlt)]; rfl
      obtain ⟨u, hu, hult⟩ := h
      rcases List.mem_cons.mp hu with rfl | hmem
      · exact absurd hult hlt
      · simp only [processTouches, if_pos hs, hnone, Bool.false_eq_true, if_false]
        have hrec := processTouches_start_reset e hs rest
          { s with inputs := s.inputs ++ [Input.create e t.identifier] }
          ⟨u, hmem, by simpa using Nat.lt_succ_of_lt hult⟩
        exact hrec

/-- C3 counterexample: a cancel-phase event does not clear the Contact
Records — `updateInputs` has no cancel handling, so the sole record is
updated in place and `true` is returned, with one record still active. -/
theorem C3_counterexample :
    updateInputs emptyState ⟨"touchstart", some [⟨0⟩], [⟨0⟩], [⟨0⟩]⟩
      = some (⟨[⟨0, some "start"⟩], [], 0⟩, true) ∧
    updateInputs ⟨[⟨0, some "start"⟩], [], 0⟩ ⟨"touchcancel", some [⟨0⟩], [⟨0⟩], [⟨0⟩]⟩
      = some (⟨[⟨0, some "cancel"⟩], [], 0⟩, true) ∧
    numActiveInputs ⟨[⟨0, some "cancel"⟩], [], 0⟩ = 1 := by
  decide

/-- C3 (amended): an event whose type normalizes to `cancel` is handled
exactly like the other non-start phases: no reset occurs, `updateInputs`
returns `true`, and the number of Contact Records is preserved (records
matched by index are updated in place, the rest kept). -/
theorem C3_amended_cancel_no_clear (s : State) (e : RawEvent) (ts : List Touch)
    (h1 : e.touches = some ts) (h2 : ts.length = e.targetTouches.length)
    (h3 : normalizeEvent e.type = some "cancel") :
    ∃ s2, updateInputs s e = some (s2, true) ∧
      s2.inputs.length = s.inputs.length := by
  have hns : ¬ normalizeEvent e.type = some "start" := by
    rw [h3]; decide
  rcases hp : processTouches s e e.changedTouches with ⟨s2, b⟩
  obtain ⟨hb, hl⟩ := processTouches_nonstart e hns e.changedTouches s
  rw [hp] at hb hl
  simp only at hb hl
  subst hb
  refine ⟨s2, ?_, hl⟩
  simp [updateInputs, h1, h2, hp]

/-- Witness for C3 (amended): a touchcancel over one tracked contact keeps
the single record and returns `true`. -/
theorem C3_amended_cancel_no_clear_witness :
    ∃ s2, updateInputs ⟨[⟨0, some "start"⟩], [], 0⟩
        ⟨"touchcancel", some [⟨0⟩], [⟨0⟩], [⟨0⟩]⟩ = some (s2, true) ∧
      s2.inputs.length = 1 :=
  C3_amended_cancel_no_clear ⟨[⟨0, some "start"⟩], [], 0⟩
    ⟨"touchcancel", some [⟨0⟩], [⟨0⟩], [⟨0⟩]⟩ [⟨0⟩] rfl rfl (by decide)

end ZT

namespace ZT

/-- C5 counterexample: records for identifiers 7 and 8 are tracked (stored
at array indices 0 and 1), so no Contact Record exists for identifier 1;
yet a move event bearing identifier 1 is not ignored — the index-based
lookup `this.inputs[1]` finds the record of identifier 8 and updates its
phase, changing the tracker state. -/
theorem C5_counterexample :
    updateInputs emptyState ⟨"touchstart", some [⟨7⟩], [⟨7⟩], [⟨7⟩]⟩
      = some (⟨[⟨7, some "start"⟩], [], 0⟩, true) ∧
    updateInputs ⟨[⟨7, some "start"⟩], [], 0⟩
        ⟨"touchstart", some [⟨7⟩, ⟨8⟩], [⟨7⟩, ⟨8⟩], [⟨8⟩]⟩
      = some (⟨[⟨7, some "start"⟩, ⟨8, some "start"⟩], [], 0⟩, true) ∧
    (([⟨7, some "start"⟩, ⟨8, some "start"⟩] : List Input).all
      fun i => i.identifier != 1) = true ∧
    updateInputs ⟨[⟨7, some "start"⟩, ⟨8, some "start"⟩], [], 0⟩
        ⟨"touchmove", some [⟨7⟩, ⟨8⟩], [⟨7⟩, ⟨8⟩], [⟨1⟩]⟩
      = some (⟨[⟨7, some "start"⟩, ⟨8, some "move"⟩], [], 0⟩, true) ∧
    (⟨[⟨7, some "start"⟩, ⟨8, some "move"⟩], [], 0⟩ : State)
      ≠ ⟨[⟨7, some "start"⟩, ⟨8, some "start"⟩], [], 0⟩ := by
  decide

/-- C5 (amended): a move or end event is ignored — state unchanged, no
reset, return `true` — exactly when every changed datum's identifier is
out of bounds as an index into the record array (identifier ≥ number of
records); existence is checked by array index, not by stored
identifier. -/
theorem C5_amended_orphan_by_index (s : State) (e : RawEvent) (ts : List Touch)
    (h1 : e.touches = some ts) (h2 : ts.length = e.targetTouches.length)
    (h3 : normalizeEvent e.type = some "move" ∨ normalizeEvent e.type = some "end")
    (h4 : ∀ t ∈ e.changedTouches, s.inputs.length ≤ t.identifier) :
    updateInputs s e = some (s, true) := by
  have hns : ¬ normalizeEvent e.type = some "start" := by
    rcases h3 with h | h <;> rw [h] <;> decide
  simp [updateInputs, h1, h2, processTouches_skip e hns e.changedTouches s h4]

/-- Witness for C5 (amended): one tracked record, a move for the
out-of-bounds identifier 5 is ignored and `true` is returned. -/
theorem C5_amended_orphan_by_index_witness :
    updateInputs ⟨[⟨0, some "start"⟩], [], 0⟩
        ⟨"touchmove", some [⟨0⟩], [⟨0⟩], [⟨5⟩]⟩
      = some (⟨[⟨0, some "start"⟩], [], 0⟩, true) :=
  C5_amended_orphan_by_index ⟨[⟨0, some "start"⟩], [], 0⟩
    ⟨"touchmove", some [⟨0⟩], [⟨0⟩], [⟨5⟩]⟩ [⟨0⟩] rfl rfl
    (Or.inl (by decide)) (by decide)

/-- C6 counterexample: a start event for identifier 1 while a non-end
record with identifier 1 is already tracked (at array index 0) does not
reset — the guard tests `this.inputs[1]`, which is out of bounds — so a
second record with the same identifier is pushed and `true` is
returned. -/
theorem C6_counterexample :
    updateInputs emptyState ⟨"touchstart", some [⟨1⟩], [⟨1⟩], [⟨1⟩]⟩
      = some (⟨[⟨1, some "start"⟩], [], 0⟩, true) ∧
    updateInputs ⟨[⟨1, some "start"⟩], [], 0⟩
        ⟨"touchstart", some [⟨1⟩], [⟨1⟩], [⟨1⟩]⟩
      = some (⟨[⟨1, some "start"⟩, ⟨1, some "start"⟩], [], 0⟩, true) := by
  decide

/-- C6 (amended): a start-phase batch containing a datum whose identifier
indexes an occupied slot of the record array (identifier < number of
records) triggers a full reset and returns `false`; the guard is by array
index, regardless of the slot's stored identifier or phase. -/
theorem C6_amended_duplicate_by_index (s : State) (e : RawEvent) (ts : List Touch)
    (h1 : e.touches = some ts) (h2 : ts.length = e.targetTouches.length)
    (h3 : normalizeEvent e.type = some "start")
    (h4 : ∃ t ∈ e.changedTouches, t.identifier < s.inputs.length) :
    updateInputs s e = some (resetInputs s, false) := by
  simp [updateInputs, h1, h2, processTouches_start_reset e h3 e.changedTouches s h4]

/-- Witness for C6 (amended): a start for identifier 0 while index 0 is
occupied (by the record of identifier 5) resets and returns `false`. -/
theorem C6_amended_duplicate_by_index_witness :
    updateInputs ⟨[⟨5, some "start"⟩], [], 0⟩
        ⟨"touchstart", some [⟨0⟩], [⟨0⟩], [⟨0⟩]⟩
      = some (resetInputs ⟨[⟨5, some "start"⟩], [], 0⟩, false) :=
  C6_amended_duplicate_by_index ⟨[⟨5, some "start"⟩], [], 0⟩
    ⟨"touchstart", some [⟨0⟩], [⟨0⟩], [⟨0⟩]⟩ [⟨0⟩] rfl rfl (by decide)
    ⟨⟨0⟩, by decide, by decide⟩

end ZT

namespace ZT

/-- One public tracker operation: an `updateInputs` call or a
`resetInputs` call. -/
inductive Step where
  | update (e : RawEvent)
  | reset
deriving DecidableEq

/-- Apply one operation to the coordinator state (a thrown exception is
state-neutral: the dereference fails before any mutation). -/
def applyStep (s : State) : Step → State
  | .reset => resetInputs s
  | .update e =>
    match updateInputs s e with
    | some p => p.1
    | none => s

/-- Run a sequence of tracker operations in order. -/
def runSteps (s : State) : List Step → State
  | [] => s
  | st :: rest => runSteps (applyStep s st) rest

/-- The identifier-index alignment discipline the code relies on: every
event carries a `touches` list, and a start-phase batch's changed
identifiers are exactly the next array indices (the k-th new contact gets
identifier `current record count + k`, as browser TouchLists that number
contacts 0,1,2,... do). -/
def goodStep (s : State) : Step → Bool
  | .reset => true
  | .update e =>
    e.touches.isSome &&
      (if normalizeEvent e.type = some "start" then
        decide (e.changedTouches.map Touch.identifier
          = List.range' s.inputs.length e.changedTouches.length)
      else true)

/-- Every operation of the run obeys the alignment discipline at the state
it executes in. -/
def goodRun : State → List Step → Bool
  | _, [] => true
  | s, st :: rest => goodStep s st && goodRun (applyStep s st) rest

/-- Index alignment: the record stored at array index `i` carries
identifier `i`. -/
def aligned (s : State) : Prop :=
  ∀ (i : Nat) (inp : Input), s.inputs[i]? = some inp → inp.identifier = i

/-- The reset state is trivially aligned. -/
theorem aligned_resetInputs (s : State) : aligned (resetInputs s) := by
  intro i inp h
  simp [resetInputs] at h

/-- The empty coordinator state is aligned. -/
theorem aligned_emptyState : aligned emptyState := by
  intro i inp h
  simp [emptyState] at h

/-- An in-place record update preserves alignment (the identifier field is
kept). -/
theorem aligned_updateAt (s : State) (e : RawEvent) (id : Nat)
    (ha : aligned s) : aligned (updateAt s e id) := by
  intro i inp h
  unfold updateAt at h
  cases hq : s.inputs[id]? with
  | none =>
    rw [hq] at h
    exact ha i inp h
  | some inp0 =>
    rw [hq] at h
    have hlt : id < s.inputs.length := by
      by_contra hge
      rw [List.getElem?_eq_none (Nat.le_of_not_lt hge)] at hq
      exact Option.noConfusion hq
    by_cases hij : id = i
    · subst hij
      simp only [List.getElem?_set_self hlt, Option.some.injEq] at h
      subst h
      exact ha id inp0 hq
    · simp only [List.getElem?_set_ne hij] at h
      exact ha i inp h

/-- A non-start batch preserves alignment. -/
theorem aligned_processTouches_nonstart (e : RawEvent)
    (hns : ¬ normalizeEvent e.type = some "start") :
    ∀ (data : List Touch) (s : State), aligned s →
      aligned (processTouches s e data).1
  | [], _, ha => ha
  | t :: rest, s, ha => by
    simp only [processTouches, if_neg hns]
    exact aligned_processTouches_nonstart e hns rest _
      (aligned_updateAt s e t.identifier ha)

/-- A start batch whose changed identifiers are the next consecutive array
indices preserves alignment: each datum is appended at the index equal to
its identifier. -/
theorem aligned_processTouches_start (e : RawEvent)
    (hs : normalizeEvent e.type = some "start") :
    ∀ (data : List Touch) (s : State), aligned s →
      data.map Touch.identifier = List.range' s.inputs.length data.length →
      aligned (processTouches s e data).1
  | [], _, ha, _ => ha
  | t :: rest, s, ha, hids => by
    rw [List.map_cons, List.length_cons, List.range'_succ] at hids
    injection hids with h1 h2
    have hnone : (s.inputs[t.identifier]?).isSome = false := by
      rw [h1, List.getElem?_eq_none (Nat.le_refl _)]; rfl
    simp only [processTouches, if_pos hs, hnone, Bool.false_eq_true, if_false]
    refine aligned_processTouches_start e hs rest
      { s with inputs := s.inputs ++ [Input.create e t.identifier] } ?_ ?_
    · intro i inp h
      simp only at h
      rcases Nat.lt_trichotomy i s.inputs.length with hlt | heq | hgt
      · rw [List.getElem?_append_left hlt] at h
        exact ha i inp h
      · subst heq
        rw [List.getElem?_concat_length] at h
        injection h with h
        subst h
        exact h1
      · rw [List.getElem?_eq_none (by simpa using hgt)] at h
        exact Option.noConfusion h
    · simpa [List.length_append] using h2

/-- Unfolding of `updateInputs` on the multi-contact path. -/
theorem updateInputs_touches (s : State) (e : RawEvent) (ts : List Touch)
    (hts : e.touches = some ts) :
    updateInputs s e =
      if ts.length ≠ e.targetTouches.length then some (resetInputs s, false)
      else some (processTouches s e e.changedTouches) := by
  unfold updateInputs
  rw [hts]

/-- A single aligned-discipline operation preserves alignment. -/
theorem aligned_applyStep (s : State) (st : Step)
    (hg : goodStep s st = true) (ha : aligned s) : aligned (applyStep s st) := by
  cases st with
  | reset => exact aligned_resetInputs s
  | update e =>
    simp only [goodStep, Bool.and_eq_true] at hg
    obtain ⟨ht, hcond⟩ := hg
    rcases Option.isSome_iff_exists.mp ht with ⟨ts, hts⟩
    show aligned (match updateInputs s e with | some p => p.1 | none => s)
    rw [updateInputs_touches s e ts hts]
    by_cases hlen : ts.length ≠ e.targetTouches.length
    · rw [if_pos hlen]
      exact aligned_resetInputs s
    · rw [if_neg hlen]
      by_cases hstart : normalizeEvent e.type = some "start"
      · rw [if_pos hstart] at hcond
        exact aligned_processTouches_start e hstart e.changedTouches s ha
          (of_decide_eq_true hcond)
      · exact aligned_processTouches_nonstart e hstart e.changedTouches s ha

/-- A whole aligned-discipline run preserves alignment. -/
theorem aligned_runSteps :
    ∀ (steps : List Step) (s : State),
      goodRun s steps = true → aligned s → aligned (runSteps s steps)
  | [], _, _, ha => ha
  | st :: rest, s, hg, ha => by
    simp only [goodRun, Bool.and_eq_true] at hg
    exact aligned_runSteps rest (applyStep s st) hg.2 (aligned_applyStep s st hg.1 ha)

/-- In an aligned state all identifiers are pairwise distinct. -/
theorem aligned_pairwise_ne (s : State) (ha : aligned s) :
    s.inputs.Pairwise (fun a b => a.identifier ≠ b.identifier) := by
  rw [List.pairwise_iff_getElem]
  intro i j hi hj hij
  have hri : (s.inputs[i]).identifier = i := ha i _ (List.getElem?_eq_getElem hi)
  have hrj : (s.inputs[j]).identifier = j := ha j _ (List.getElem?_eq_getElem hj)
  rw [hri, hrj]
  exact Nat.ne_of_lt hij

/-- C4 counterexample: two `updateInputs` calls from the empty state, each
a start for identifier 1, leave two Contact Records that share
identifier 1 while both are in the (non-end) start phase — the duplicate
guard tested the out-of-bounds index `this.inputs[1]`, not the stored
identifiers. -/
theorem C4_counterexample :
    (runSteps emptyState
        [.update ⟨"touchstart", some [⟨1⟩], [⟨1⟩], [⟨1⟩]⟩,
         .update ⟨"touchstart", some [⟨1⟩], [⟨1⟩], [⟨1⟩]⟩]).inputs
      = [⟨1, some "start"⟩, ⟨1, some "start"⟩] ∧
    (([⟨1, some "start"⟩, ⟨1, some "start"⟩] : List Input).all
      fun i => i.currentType != some "end") = true := by
  decide

/-- C4 (amended): after any sequence of `updateInputs`/`resetInputs`
operations from the empty state that follows the identifier-index
alignment discipline (`goodRun`: events carry a `touches` list and each
start batch's changed identifiers are the next consecutive array
indices), no two Contact Records share an identifier — in particular no
two non-end records do.  Without that discipline the property fails. -/
theorem C4_amended_no_duplicate_ids (steps : List Step)
    (hg : goodRun emptyState steps = true) :
    (runSteps emptyState steps).inputs.Pairwise
      (fun a b => a.identifier ≠ b.identifier) :=
  aligned_pairwise_ne _ (aligned_runSteps steps emptyState hg aligned_emptyState)

/-- Witness for C4 (amended): a start, a move and a second start obeying
the alignment discipline yield records with pairwise distinct
identifiers. -/
theorem C4_amended_no_duplicate_ids_witness :
    goodRun emptyState
        [.update ⟨"touchstart", some [⟨0⟩], [⟨0⟩], [⟨0⟩]⟩,
         .update ⟨"touchmove", some [⟨0⟩], [⟨0⟩], [⟨0⟩]⟩,
         .update ⟨"touchstart", some [⟨0⟩, ⟨1⟩], [⟨0⟩, ⟨1⟩], [⟨1⟩]⟩] = true ∧
    (runSteps emptyState
        [.update ⟨"touchstart", some [⟨0⟩], [⟨0⟩], [⟨0⟩]⟩,
         .update ⟨"touchmove", some [⟨0⟩], [⟨0⟩], [⟨0⟩]⟩,
         .update ⟨"touchstart", some [⟨0⟩, ⟨1⟩], [⟨0⟩, ⟨1⟩], [⟨1⟩]⟩]).inputs.Pairwise
      (fun a b => a.identifier ≠ b.identifier) :=
  ⟨by decide,
    C4_amended_no_duplicate_ids
      [.update ⟨"touchstart", some [⟨0⟩], [⟨0⟩], [⟨0⟩]⟩,
       .update ⟨"touchmove", some [⟨0⟩], [⟨0⟩], [⟨0⟩]⟩,
       .update ⟨"touchstart", some [⟨0⟩, ⟨1⟩], [⟨0⟩, ⟨1⟩], [⟨1⟩]⟩] (by decide)⟩

end ZT
